import Mathlib

/-!
Shallow embedding of the read-through caching and trending-aggregation
subsystem of the repository (`src/lib/types/fetcher.ts` and the trending
subject job), together with theorems settling the specification claims.

Conventions of the embedding:

* Redis is modelled as typed association lists, one per key space; the
  JSON round-trip (`JSON.parse (JSON.stringify x) = x`) is assumed, so a
  cache stores converted records directly instead of byte strings.
* The relational store is modelled as lists of row structures; a
  `where id = x` query becomes `List.find?`, a `where id in (...)` query
  becomes `List.filter`; `id` columns are primary keys.
* The effects the claims talk about (store queries, cache multi-gets,
  cache writes) are returned explicitly in output structures alongside
  the function result; TypeScript in-place mutation of an argument is
  threaded as explicit state and returned.
* Tag names and subject titles are abstract `Nat` codes (so NFKC
  normalization is the identity on these atoms), ordered as the source
  columns are.
-/

/-- Typed model of one redis key space: an association list from keys to
stored values, most recent write first. -/
abbrev Assoc (κ α : Type) := List (κ × α)

/-- Model of `redis.get key` (and of one key of an `mget`). -/
def cacheGet {κ α : Type} [DecidableEq κ] (m : Assoc κ α) (k : κ) : Option α :=
  match m with
  | [] => none
  | p :: rest => if p.1 = k then some p.2 else cacheGet rest k

/-- Model of `redis.del key`. -/
def cacheDel {κ α : Type} [DecidableEq κ] (m : Assoc κ α) (k : κ) : Assoc κ α :=
  m.filter (fun p => !decide (p.1 = k))

/-- Model of `redis.set` / `redis.setex`: overwrite the key with a value
(where a TTL matters to a claim it is carried in the value). -/
def cachePut {κ α : Type} [DecidableEq κ] (m : Assoc κ α) (k : κ) (v : α) : Assoc κ α :=
  (k, v) :: cacheDel m k

/-- `lodash.uniq` helper: de-duplicate keeping first occurrences, with an
accumulator of ids already seen. -/
def uniqFrom (seen : List Nat) : List Nat → List Nat
  | [] => []
  | x :: xs => if x ∈ seen then uniqFrom seen xs else x :: uniqFrom (x :: seen) xs

/-- `lodash.uniq`: de-duplicate a list of ids keeping first occurrences. -/
def uniq (l : List Nat) : List Nat := uniqFrom [] l

/-- Joined row of `chii_subjects` inner-join `chii_subject_fields`; the
fetcher joins the two tables 1:1 on `id` in every query, so the join is
modelled as a single row shape. -/
structure SubjectRow where
  id : Nat
  typeID : Nat
  ban : Nat
  nsfw : Bool
  platform : Nat
  series : Bool
  collect : Nat
  name : Nat
  year : Nat
  month : Nat
  rank : Nat
  date : Nat
deriving Repr, DecidableEq

/-- `res.ISlimSubject` as far as the claims are concerned:
`convert.toSlimSubject` keeps the subject id and the `nsfw` flag that the
fetchers re-check per request. -/
structure SlimSubject where
  id : Nat
  nsfw : Bool
deriving Repr, DecidableEq

/-- `res.ISubject`, reduced to the fields the claims mention. -/
structure Subject where
  id : Nat
  nsfw : Bool
deriving Repr, DecidableEq

/-- `convert.toSlimSubject` on the joined row. -/
def toSlimSubject (r : SubjectRow) : SlimSubject := ⟨r.id, r.nsfw⟩

/-- `convert.toSubject` on the joined row. -/
def toSubject (r : SubjectRow) : Subject := ⟨r.id, r.nsfw⟩

/-- Row of `chii_members` as used by the user fetchers. -/
structure UserRow where
  id : Nat
deriving Repr, DecidableEq

/-- `res.ISlimUser`, reduced to the id. -/
structure SlimUser where
  id : Nat
deriving Repr, DecidableEq

/-- `convert.toSlimUser`. -/
def toSlimUser (r : UserRow) : SlimUser := ⟨r.id⟩

/-- Row of `chii_episodes` as used by the episode fetchers: the id and
the `ban` column that only the single-id query filters on. -/
structure EpisodeRow where
  id : Nat
  ban : Nat
deriving Repr, DecidableEq

/-- `res.IEpisode`, reduced to the id. -/
structure Episode where
  id : Nat
deriving Repr, DecidableEq

/-- `convert.toEpisode`. -/
def toEpisode (r : EpisodeRow) : Episode := ⟨r.id⟩

/-- Row of `chii_subject_topics` / `chii_group_topics`. -/
structure TopicRow where
  id : Nat
deriving Repr, DecidableEq

/-- `res.ITopic`, reduced to the id. -/
structure Topic where
  id : Nat
deriving Repr, DecidableEq

/-- `convert.toSubjectTopic`. -/
def toSubjectTopic (r : TopicRow) : Topic := ⟨r.id⟩

/-- `convert.toGroupTopic`. -/
def toGroupTopic (r : TopicRow) : Topic := ⟨r.id⟩

/-- The slice of the redis key spaces and MySQL tables visible to the
entity fetchers of `fetcher.ts`. -/
structure FetchEnv where
  userSlimCache : Assoc Nat SlimUser
  subjectSlimCache : Assoc Nat SlimSubject
  subjectItemCache : Assoc Nat Subject
  subjectTopicCache : Assoc Nat Topic
  groupTopicCache : Assoc Nat Topic
  epCache : Assoc Nat Episode
  users : List UserRow
  subjects : List SubjectRow
  episodes : List EpisodeRow
  subjectTopics : List TopicRow
  groupTopics : List TopicRow
deriving Repr, DecidableEq

/-- Result of a single-id fetch together with its observable effects:
whether a store query was issued and which cache write happened. -/
structure FetchOut (α : Type) where
  result : Option α
  storeQueried : Bool
  cacheWrite : Option (Nat × α)
deriving Repr, DecidableEq

/-- Result of a batch fetch together with its observable effects: the
result map (association list keyed by id; ids are unique by primary
key), the key lists of the issued cache multi-gets, the id lists of the
issued store queries, and the per-item cache writes. -/
structure BatchOut (α : Type) where
  result : Assoc Nat α
  mgetCalls : List (List Nat)
  storeQueries : List (List Nat)
  cacheWrites : Assoc Nat α
deriving Repr, DecidableEq

/-- The `where id = ... and ban != 1` predicate of the single-subject
queries. -/
def subjectSinglePred (id : Nat) (r : SubjectRow) : Bool :=
  decide (r.id = id ∧ r.ban ≠ 1)

/-- The `where id in (missing) and ban != 1` predicate of the batched
subject queries. -/
def subjectBatchPred (ids : List Nat) (r : SubjectRow) : Bool :=
  decide (r.id ∈ ids ∧ r.ban ≠ 1)

/-- The `where id in (missing)` predicate of the batched user query
(note: no ban exclusion in the source). -/
def userBatchPred (ids : List Nat) (r : UserRow) : Bool :=
  decide (r.id ∈ ids)

/-- The `where id = ... and ban != 1` predicate of `fetchEpisodeByID`. -/
def epSinglePred (id : Nat) (r : EpisodeRow) : Bool :=
  decide (r.id = id ∧ r.ban ≠ 1)

/-- The `where id in (missing)` predicate of `fetchEpisodesByIDs`
(note: no ban predicate in the source, unlike the single-id query). -/
def epBatchPred (ids : List Nat) (r : EpisodeRow) : Bool :=
  decide (r.id ∈ ids)

/-- The `where id in (missing)` predicate of the batched topic queries. -/
def topicBatchPred (ids : List Nat) (r : TopicRow) : Bool :=
  decide (r.id ∈ ids)

/-- Shallow embedding of `fetchSlimSubjectByID` (fetcher.ts lines
115-142): read-through with a per-request NSFW re-check on both the
deserialized cache hit and the freshly converted store row. -/
def fetchSlimSubjectByID (env : FetchEnv) (id : Nat) (allowNsfw : Bool) :
    FetchOut SlimSubject :=
  match cacheGet env.subjectSlimCache id with
  | some slim =>
    if !allowNsfw && slim.nsfw then ⟨none, false, none⟩ else ⟨some slim, false, none⟩
  | none =>
    match env.subjects.find? (subjectSinglePred id) with
    | none => ⟨none, true, none⟩
    | some r =>
      let slim := toSlimSubject r
      if !allowNsfw && slim.nsfw then ⟨none, true, some (id, slim)⟩
      else ⟨some slim, true, some (id, slim)⟩

/-- Shallow embedding of `fetchSubjectByID` (fetcher.ts lines 195-221):
same shape as `fetchSlimSubjectByID` over the item cache. -/
def fetchSubjectByID (env : FetchEnv) (id : Nat) (allowNsfw : Bool) :
    FetchOut Subject :=
  match cacheGet env.subjectItemCache id with
  | some item =>
    if !allowNsfw && item.nsfw then ⟨none, false, none⟩ else ⟨some item, false, none⟩
  | none =>
    match env.subjects.find? (subjectSinglePred id) with
    | none => ⟨none, true, none⟩
    | some r =>
      let item := toSubject r
      if !allowNsfw && item.nsfw then ⟨none, true, some (id, item)⟩
      else ⟨some item, true, some (id, item)⟩

/-- Shallow embedding of `fetchEpisodeByID` (fetcher.ts lines 506-521):
the store query excludes `ban = 1` rows. -/
def fetchEpisodeByID (env : FetchEnv) (episodeID : Nat) : FetchOut Episode :=
  match cacheGet env.epCache episodeID with
  | some item => ⟨some item, false, none⟩
  | none =>
    match env.episodes.find? (epSinglePred episodeID) with
    | none => ⟨none, true, none⟩
    | some r =>
      let item := toEpisode r
      ⟨some item, true, some (episodeID, item)⟩

/-- The hit/miss partition loop shared by the batch fetchers that apply
no visibility filter on hits: walk the ids in order, record cache hits,
collect misses in order. -/
def hitLoop {α : Type} (cache : Assoc Nat α) : List Nat → Assoc Nat α × List Nat
  | [] => ([], [])
  | id :: rest =>
    let acc := hitLoop cache rest
    match cacheGet cache id with
    | some v => ((id, v) :: acc.1, acc.2)
    | none => (acc.1, id :: acc.2)

/-- The hit/miss partition loop of `fetchSlimSubjectsByIDs`: an NSFW
cache hit under `allowNsfw = false` is skipped (`continue`) — it is
neither returned nor added to the missing ids. -/
def nsfwHitLoop (cache : Assoc Nat SlimSubject) (allowNsfw : Bool) :
    List Nat → Assoc Nat SlimSubject × List Nat
  | [] => ([], [])
  | id :: rest =>
    let acc := nsfwHitLoop cache allowNsfw rest
    match cacheGet cache id with
    | some slim =>
      if !allowNsfw && slim.nsfw then (acc.1, acc.2)
      else ((id, slim) :: acc.1, acc.2)
    | none => (acc.1, id :: acc.2)

/-- Shallow embedding of `fetchSlimUsersByIDs` (fetcher.ts lines 70-96).
Note that the source has no `missing.length > 0` guard: when the input is
non-empty the `where id in (missing)` store query is issued even when
`missing` is empty. -/
def fetchSlimUsersByIDs (env : FetchEnv) (ids0 : List Nat) : BatchOut SlimUser :=
  if ids0 = [] then ⟨[], [], [], []⟩
  else
    let ids := uniq ids0
    let acc := hitLoop env.userSlimCache ids
    let rows := env.users.filter (userBatchPred acc.2)
    let inserted := rows.map (fun r => (r.id, toSlimUser r))
    ⟨acc.1 ++ inserted, [ids], [acc.2], inserted⟩

/-- Shallow embedding of `fetchSlimSubjectsByIDs` (fetcher.ts lines
145-192): empty-input short-circuit, de-duplication, one multi-get, a
store query over exactly the missing ids guarded by `missing.length > 0`
and excluding banned rows, a cache write for every returned row, and an
NSFW re-check before insertion into the result map. -/
def fetchSlimSubjectsByIDs (env : FetchEnv) (ids0 : List Nat) (allowNsfw : Bool) :
    BatchOut SlimSubject :=
  if ids0 = [] then ⟨[], [], [], []⟩
  else
    let ids := uniq ids0
    let acc := nsfwHitLoop env.subjectSlimCache allowNsfw ids
    if acc.2 = [] then ⟨acc.1, [ids], [], []⟩
    else
      let rows := env.subjects.filter (subjectBatchPred acc.2)
      let writes := rows.map (fun r => (r.id, toSlimSubject r))
      let visible := (rows.filter (fun r => !(!allowNsfw && r.nsfw))).map
        (fun r => (r.id, toSlimSubject r))
      ⟨acc.1 ++ visible, [ids], [acc.2], writes⟩

/-- Shallow embedding of `fetchSubjectTopicsByIDs` (fetcher.ts lines
480-503). Note that the source neither short-circuits an empty input nor
de-duplicates: `redis.mget` is invoked on the (possibly empty) key list
unconditionally. -/
def fetchSubjectTopicsByIDs (env : FetchEnv) (ids : List Nat) : BatchOut Topic :=
  let acc := hitLoop env.subjectTopicCache ids
  if acc.2 = [] then ⟨acc.1, [ids], [], []⟩
  else
    let rows := env.subjectTopics.filter (topicBatchPred acc.2)
    let inserted := rows.map (fun r => (r.id, toSubjectTopic r))
    ⟨acc.1 ++ inserted, [ids], [acc.2], inserted⟩

/-- Shallow embedding of `fetchEpisodesByIDs` (fetcher.ts lines 524-550):
no empty-input short-circuit, no de-duplication, and — unlike
`fetchEpisodeByID` — no ban predicate on the store query. -/
def fetchEpisodesByIDs (env : FetchEnv) (episodeIDs : List Nat) : BatchOut Episode :=
  let acc := hitLoop env.epCache episodeIDs
  if acc.2 = [] then ⟨acc.1, [episodeIDs], [], []⟩
  else
    let rows := env.episodes.filter (epBatchPred acc.2)
    let inserted := rows.map (fun r => (r.id, toEpisode r))
    ⟨acc.1 ++ inserted, [episodeIDs], [acc.2], inserted⟩

/-- Shallow embedding of `fetchGroupTopicsByIDs` (fetcher.ts lines
904-927): same shape as `fetchSubjectTopicsByIDs`, including the missing
empty-input short-circuit. -/
def fetchGroupTopicsByIDs (env : FetchEnv) (ids : List Nat) : BatchOut Topic :=
  let acc := hitLoop env.groupTopicCache ids
  if acc.2 = [] then ⟨acc.1, [ids], [], []⟩
  else
    let rows := env.groupTopics.filter (topicBatchPred acc.2)
    let inserted := rows.map (fun r => (r.id, toGroupTopic r))
    ⟨acc.1 ++ inserted, [ids], [acc.2], inserted⟩

/-- The ids of `(uniq ids)` that miss the given cache — what the batch
fetchers accumulate as `missing`. -/
def missedIDs {α : Type} (cache : Assoc Nat α) (ids : List Nat) : List Nat :=
  (uniq ids).filter (fun id => (cacheGet cache id).isNone)

/-- Numeric values of the `SubjectType` enum used by the trending job. -/
def SubjectType.Book : Nat := 1

/-- `SubjectType.Anime`. -/
def SubjectType.Anime : Nat := 2

/-- `SubjectType.Music`. -/
def SubjectType.Music : Nat := 3

/-- `SubjectType.Game`. -/
def SubjectType.Game : Nat := 4

/-- Modelled from the spec: the `TrendingPeriod` enumeration
(`lib/trending/type.ts` is not among the sources). The spec describes an
"enumerated duration class (e.g., week, month)" whose unmapped members
must be rejected; the jobs in the sources use the `Week` and `Month`
members. -/
inductive TrendingPeriod where
  | All
  | Day
  | Week
  | Month
deriving Repr, DecidableEq

/-- Modelled from the spec: `getTrendingPeriodDuration` maps the mapped
periods (week, month) to their fixed duration in milliseconds and yields
nothing on the unmapped ones, which callers must reject. -/
def getTrendingPeriodDuration : TrendingPeriod → Option Nat
  | TrendingPeriod.Week => some 604800000
  | TrendingPeriod.Month => some 2592000000
  | _ => none

/-- One entry of a trending list: a subject id with its aggregate
interest count (`TrendingItem` of `lib/trending/type.ts`, shape taken
from the aggregate written by `updateTrendingSubjects`). -/
structure TrendingItem where
  id : Nat
  total : Nat
deriving Repr, DecidableEq

/-- Row of `chii_subject_interests` as used by the trending aggregate. -/
structure InterestRow where
  subjectID : Nat
  doingDateline : Nat
  updatedAt : Nat
deriving Repr, DecidableEq

/-- The redis key spaces and MySQL tables visible to the trending
subject job. Lock values carry the TTL in seconds that `redis.set ...
'EX' ttl` installed; expiry itself happens outside the modelled step. -/
structure TrendEnv where
  lock : Assoc (Nat × TrendingPeriod) Nat
  trending : Assoc (Nat × TrendingPeriod) (List TrendingItem)
  interests : List InterestRow
  subjects : List SubjectRow
  now : Nat
deriving Repr, DecidableEq

/-- Result of one `updateTrendingSubjects` run: the updated state and
whether the aggregate store query was issued. -/
structure TrendOut where
  state : TrendEnv
  aggQueried : Bool
deriving Repr, DecidableEq

/-- The subject ids of the joined `chii_subject_interests` inner-join
`chii_subjects` rows passing the aggregate query's predicates (subject
type, ban and nsfw exclusion, trailing window on the doing/updated
timestamp). -/
def trendingJoinRows (env : TrendEnv) (subjectType : Nat) (doing : Bool)
    (minDateline : Nat) : List Nat :=
  env.interests.filterMap (fun i =>
    match env.subjects.find? (fun r => decide (r.id = i.subjectID)) with
    | none => none
    | some r =>
      if r.typeID = subjectType ∧ r.ban ≠ 1 ∧ r.nsfw = false ∧
          (if doing then minDateline < i.doingDateline else minDateline < i.updatedAt)
      then some i.subjectID else none)

/-- The `group by subject id`, `count`, `order by count desc`, `limit
1000` tail of the aggregate query. Ties are broken arbitrarily by SQL;
the model fixes a stable insertion sort. -/
def aggregateTrending (env : TrendEnv) (subjectType : Nat) (doing : Bool)
    (minDateline : Nat) : List TrendingItem :=
  let sids := trendingJoinRows env subjectType doing minDateline
  let groups := (uniq sids).map (fun id => TrendingItem.mk id (sids.count id))
  (@List.insertionSort TrendingItem (fun a b => b.total ≤ a.total)
    (fun a b => Nat.decLe b.total a.total) groups).take 1000

/-- The ranked list a successful `updateTrendingSubjects` run computes
for the given subject type when the period's duration is `d`: the
book/music kinds window on the `updatedAt` timestamp, everything else on
the `doingDateline` timestamp. -/
def trendingListFor (env : TrendEnv) (subjectType : Nat) (d : Nat) : List TrendingItem :=
  aggregateTrending env subjectType
    (decide (¬(subjectType = SubjectType.Book ∨ subjectType = SubjectType.Music)))
    (env.now - d)

/-- Shallow embedding of `updateTrendingSubjects` (the trending subject
job): optional lock flush, check-then-set advisory lock with a 1-hour
TTL, duration resolution with abort on unmapped periods (the lock is
left in place), the aggregate query, the trending-key write and the
explicit lock release. Logging is not modelled. -/
def updateTrendingSubjects (env : TrendEnv) (subjectType : Nat)
    (period : TrendingPeriod) (flush : Bool) : TrendOut :=
  let key := (subjectType, period)
  let lock1 := if flush then cacheDel env.lock key else env.lock
  if (cacheGet lock1 key).isSome then ⟨{ env with lock := lock1 }, false⟩
  else
    let lock2 := cachePut lock1 key 3600
    match getTrendingPeriodDuration period with
    | none => ⟨{ env with lock := lock2 }, false⟩
    | some duration =>
      let items := trendingListFor env subjectType duration
      let trending2 := cachePut env.trending key items
      let lock3 := cacheDel lock2 key
      ⟨{ env with trending := trending2, lock := lock3 }, true⟩

/-- Shallow embedding of `getTrendingSubjects`: a read-only slice
`ids.slice(offset, offset + limit)` of the cached ranked list, the empty
list when nothing is cached. -/
def getTrendingSubjects (env : TrendEnv) (subjectType : Nat)
    (period : TrendingPeriod) (limit offset : Nat) : List TrendingItem :=
  match cacheGet env.trending (subjectType, period) with
  | none => []
  | some ids => (ids.drop offset).take limit

/-- The `SubjectSort` enum of `lib/subject/type.ts` as used by
`fetchSubjectIDsByFilter`. -/
inductive SubjectSort where
  | Rank
  | Trends
  | Collects
  | Date
  | Title
deriving Repr, DecidableEq

/-- `SubjectFilter`: the optional members reflect the TS object; `cat`,
`year` and `month` are numeric and JS-falsy at `0`, `series` is boolean
and JS-falsy at `false`, while `tags` and `ids` are arrays, truthy even
when empty. -/
structure SubjectFilter where
  type : Nat
  nsfw : Bool
  cat : Option Nat
  series : Option Bool
  year : Option Nat
  month : Option Nat
  tags : Option (List Nat)
  ids : Option (List Nat)
deriving Repr, DecidableEq

/-- `res.IPaged<number>`: one page of ids plus the `total` field. -/
structure IPaged where
  data : List Nat
  total : Nat
deriving Repr, DecidableEq

/-- Row of `chii_tag_neue_index`. -/
structure TagIndexRow where
  id : Nat
  cat : Nat
  type : Nat
  name : Nat
deriving Repr, DecidableEq

/-- Row of `chii_tag_neue_list`. -/
structure TagListRow where
  tagID : Nat
  cat : Nat
  type : Nat
  mainID : Nat
deriving Repr, DecidableEq

/-- `TagCat.Subject` of `lib/tag.ts` (only its identity matters). -/
def TagCat.Subject : Nat := 3

/-- The redis key spaces and MySQL tables visible to
`fetchSubjectIDsByFilter`. The list cache is keyed by the
filter/sort/page triple (`getSubjectListCacheKey` is a pure injective
function of its inputs). -/
structure ListEnv where
  listCache : Assoc (SubjectFilter × SubjectSort × Nat) IPaged
  trending : Assoc (Nat × TrendingPeriod) (List TrendingItem)
  tagIndex : List TagIndexRow
  tagList : List TagListRow
  subjects : List SubjectRow
deriving Repr, DecidableEq

/-- Result of one `fetchSubjectIDsByFilter` call: the paged result, the
caller-visible filter object after the function's in-place mutations,
the list-cache writes as (key, value, ttl) triples, and whether the
count and page queries were issued. -/
structure ListOut where
  result : IPaged
  filter : SubjectFilter
  cacheWrites : List ((SubjectFilter × SubjectSort × Nat) × IPaged × Nat)
  countQueried : Bool
  pageQueried : Bool
deriving Repr, DecidableEq

/-- JS truthiness of the optional numeric filter members: `0`, like
absence, is falsy in `if (filter.cat)` and friends. -/
def truthyNat : Option Nat → Option Nat
  | some n => if n = 0 then none else some n
  | none => none

/-- The two-step tag resolution of fetcher.ts lines 292-320: tag names
to `chii_tag_neue_index` ids, then `selectDistinct` member ids from
`chii_tag_neue_list`. -/
def tagMatchSubjectIDs (env : ListEnv) (type : Nat) (tags : List Nat) : List Nat :=
  let tagIDs := (env.tagIndex.filter (fun r =>
    decide (r.cat = TagCat.Subject ∧ r.type = type ∧ r.name ∈ tags))).map (fun r => r.id)
  uniq ((env.tagList.filter (fun r =>
    decide (r.cat = TagCat.Subject ∧ r.type = type ∧ r.tagID ∈ tagIDs))).map (fun r => r.mainID))

/-- The condition list built at fetcher.ts lines 328-373 as one
predicate on the joined subject row, including the `rank != 0` condition
pushed for the `Rank` sort. -/
def listConds (filter : SubjectFilter) (sort : SubjectSort) (r : SubjectRow) : Bool :=
  decide (r.typeID = filter.type) &&
  decide (r.ban ≠ 1) &&
  (if filter.nsfw then true else decide (r.nsfw = false)) &&
  (match truthyNat filter.cat with | some c => decide (r.platform = c) | none => true) &&
  (match filter.series with | some true => decide (r.series = true) | _ => true) &&
  (match truthyNat filter.year with | some y => decide (r.year = y) | none => true) &&
  (match truthyNat filter.month with | some m => decide (r.month = m) | none => true) &&
  (match filter.ids with | some l => decide (r.id ∈ l) | none => true) &&
  (if sort = SubjectSort.Rank then decide (r.rank ≠ 0) else true)

/-- The `orderBy` of the page query; for `Trends` the rows follow
`find_in_set` over the resolved trending id list (ranked-list order). -/
def sortRows (filter : SubjectFilter) (sort : SubjectSort)
    (rows : List SubjectRow) : List SubjectRow :=
  match sort with
  | SubjectSort.Rank =>
    @List.insertionSort SubjectRow (fun a b => a.rank ≤ b.rank)
      (fun a b => Nat.decLe a.rank b.rank) rows
  | SubjectSort.Collects =>
    @List.insertionSort SubjectRow (fun a b => b.collect ≤ a.collect)
      (fun a b => Nat.decLe b.collect a.collect) rows
  | SubjectSort.Date =>
    @List.insertionSort SubjectRow (fun a b => b.date ≤ a.date)
      (fun a b => Nat.decLe b.date a.date) rows
  | SubjectSort.Title =>
    @List.insertionSort SubjectRow (fun a b => a.name ≤ b.name)
      (fun a b => Nat.decLe a.name b.name) rows
  | SubjectSort.Trends =>
    match filter.ids with
    | some l =>
      @List.insertionSort SubjectRow (fun a b => l.indexOf a.id ≤ l.indexOf b.id)
        (fun a b => Nat.decLe (l.indexOf a.id) (l.indexOf b.id)) rows
    | none => rows

/-- The tail of `fetchSubjectIDsByFilter` once the count query found a
non-zero count and any trending ids were resolved: page total
`Math.ceil(count / 24)`, one sorted page of 24 ids at offset
`(page - 1) * 24`, and the list-cache write with the page-differentiated
TTL (86400 s for page 1, 3600 s otherwise). -/
def listMainResult (env : ListEnv) (key0 : SubjectFilter) (f2 : SubjectFilter)
    (sort : SubjectSort) (page : Nat) : ListOut :=
  let matching := env.subjects.filter (listConds f2 sort)
  let total := (matching.length + 23) / 24
  let rows := sortRows f2 sort matching
  let data := ((rows.drop ((page - 1) * 24)).take 24).map (fun r => r.id)
  ⟨⟨data, total⟩, f2, [((key0, sort, page), ⟨data, total⟩, if page = 1 then 86400 else 3600)],
    true, true⟩

/-- Shallow embedding of `fetchSubjectIDsByFilter` (fetcher.ts lines
273-405). The TS function mutates its `filter` argument in place; the
embedding threads that mutation explicitly and returns the
caller-visible filter object in `ListOut.filter`. The source's
`if (!tagIndexes)` check is vacuous (a JS array is always truthy) and
has no counterpart here. The cache key is computed from the filter as
passed in, before any mutation. -/
def fetchSubjectIDsByFilter (env : ListEnv) (filter0 : SubjectFilter)
    (sort : SubjectSort) (page : Nat) : ListOut :=
  match cacheGet env.listCache (filter0, sort, page) with
  | some cachedPage => ⟨cachedPage, filter0, [], false, false⟩
  | none =>
    let step1 : Option SubjectFilter :=
      if sort = SubjectSort.Trends then
        match cacheGet env.trending (filter0.type, TrendingPeriod.Month) with
        | none => none
        | some items => some { filter0 with ids := some (items.map (fun it => it.id)) }
      else some filter0
    match step1 with
    | none => ⟨⟨[], 0⟩, filter0, [], false, false⟩
    | some f1 =>
      let f2 :=
        match f1.tags with
        | some ts =>
          let subjectIDs := tagMatchSubjectIDs env f1.type ts
          match f1.ids with
          | some l => { f1 with ids := some (l.filter (fun id => decide (id ∈ subjectIDs))) }
          | none => { f1 with ids := some subjectIDs }
        | none => f1
      let count := (env.subjects.filter (listConds f2 sort)).length
      if count = 0 then ⟨⟨[], 0⟩, f2, [], true, false⟩
      else if sort = SubjectSort.Trends ∧ f2.ids = none then ⟨⟨[], 0⟩, f2, [], true, false⟩
      else listMainResult env filter0 f2 sort page

/-- A subject row with the given id, type, ban and nsfw columns and
zeroed remaining columns, for concrete test environments. -/
def mkSubjectRow (id typeID ban : Nat) (nsfw : Bool) : SubjectRow :=
  ⟨id, typeID, ban, nsfw, 0, false, 0, 0, 0, 0, 0, 0⟩

/-- A fetcher environment with empty caches and empty tables. -/
def emptyFetchEnv : FetchEnv :=
  ⟨[], [], [], [], [], [], [], [], [], [], []⟩

/-- Environment for the C1 witness: subject 5 is cached — in both the
slim and the item key space — with `nsfw = true`. -/
def c1env : FetchEnv :=
  { emptyFetchEnv with
    subjectSlimCache := [(5, ⟨5, true⟩)]
    subjectItemCache := [(5, ⟨5, true⟩)] }

/-- Environment for the C6 witness: nothing cached; the store holds
subject 2 banned and subjects 1 and 3 present (non-nsfw). -/
def c6env : FetchEnv :=
  { emptyFetchEnv with
    subjects := [mkSubjectRow 1 2 0 false, mkSubjectRow 2 2 1 false, mkSubjectRow 3 2 0 false] }

/-- Environment for the C8 counterexample and witness: users 1 and 2 are
both cache hits. -/
def c8env : FetchEnv :=
  { emptyFetchEnv with userSlimCache := [(1, ⟨1⟩), (2, ⟨2⟩)] }

/-- Environment for the C9 witness: episode 7 exists in the store,
banned, and is not cached. -/
def c9env : FetchEnv :=
  { emptyFetchEnv with episodes := [⟨7, 1⟩] }

/-- Environment for the C5 witness: interests giving the aggregate
counts `{10 ↦ 5, 20 ↦ 9, 30 ↦ 1}` for anime subjects inside the month
window (`now = duration + 1`, so `minDateline = 1` and every
`doingDateline = 2` row is inside the window). -/
def c5env : TrendEnv :=
  { lock := []
    trending := []
    interests :=
      (List.range 5).map (fun _ => ⟨10, 2, 0⟩) ++
      (List.range 9).map (fun _ => ⟨20, 2, 0⟩) ++ [⟨30, 2, 0⟩]
    subjects := [mkSubjectRow 10 2 0 false, mkSubjectRow 20 2 0 false, mkSubjectRow 30 2 0 false]
    now := 2592000001 }

/-- Environment for the C3 witness: a live lock for (anime, month). -/
def c3env : TrendEnv :=
  { c5env with lock := [((SubjectType.Anime, TrendingPeriod.Month), 3600)] }

/-- Filter for the C2 witness/counterexample: anime, NSFW excluded, no
optional constraint. -/
def c2filter : SubjectFilter :=
  ⟨2, false, none, none, none, none, none, none⟩

/-- Environment for the C2 witness/counterexample: 25 matching anime
subjects (ids 1..25), nothing cached. -/
def c2env : ListEnv :=
  { listCache := []
    trending := []
    tagIndex := []
    tagList := []
    subjects := (List.range 25).map (fun i =>
      ⟨i + 1, 2, 0, false, 0, false, i, 0, 0, 0, 0, 0⟩) }

/-- Filter for the C10 witness: anime, a tag constraint (tag name code
9), no id constraint on entry. -/
def c10filter : SubjectFilter :=
  ⟨2, true, none, none, none, none, some [9], none⟩

/-- Environment for the C10 witness: a trending list for (anime, month)
with ids 40 and 50, and a tag table matching tag 9 to subject 40. -/
def c10env : ListEnv :=
  { listCache := []
    trending := [((2, TrendingPeriod.Month), [⟨40, 3⟩, ⟨50, 2⟩])]
    tagIndex := [⟨11, TagCat.Subject, 2, 9⟩]
    tagList := [⟨11, TagCat.Subject, 2, 40⟩]
    subjects := [] }

theorem cacheGet_cacheDel {κ α : Type} [DecidableEq κ] (m : Assoc κ α) (k : κ) :
    cacheGet (cacheDel m k) k = none := by
  induction m with
  | nil => rfl
  | cons p rest ih =>
    by_cases h : p.1 = k <;>
      simp only [cacheDel, List.filter_cons, h, decide_True, decide_False, Bool.not_true,
        Bool.not_false, if_true, if_false, cacheGet] <;>
      simpa [cacheDel] using ih

theorem cacheGet_cachePut {κ α : Type} [DecidableEq κ] (m : Assoc κ α) (k : κ) (v : α) :
    cacheGet (cachePut m k v) k = some v := by
  simp [cachePut, cacheGet]

theorem hitLoop_snd {α : Type} (cache : Assoc Nat α) (l : List Nat) :
    (hitLoop cache l).2 = l.filter (fun id => (cacheGet cache id).isNone) := by
  induction l with
  | nil => rfl
  | cons x xs ih =>
    cases h : cacheGet cache x <;> simp [hitLoop, List.filter_cons, h, ih]

theorem nsfwHitLoop_snd (cache : Assoc Nat SlimSubject) (allowNsfw : Bool) (l : List Nat) :
    (nsfwHitLoop cache allowNsfw l).2 =
      l.filter (fun id => (cacheGet cache id).isNone) := by
  induction l with
  | nil => rfl
  | cons x xs ih =>
    cases h : cacheGet cache x with
    | none => simp [nsfwHitLoop, List.filter_cons, h, ih]
    | some v =>
      by_cases hn : (!allowNsfw && v.nsfw) = true <;>
        simp [nsfwHitLoop, List.filter_cons, h, hn, ih]

/-- C1: a subject whose converted record sits in the cache with
`nsfw = true` is absent under `allowNsfw = false` and returned under
`allowNsfw = true`, from the same cached payload, and in neither case is
a store query issued (nor a cache write made); likewise for
`fetchSubjectByID` over the item cache. -/
theorem claim_C1 (env : FetchEnv) (id : Nat) (s : SlimSubject) (it : Subject)
    (hs : cacheGet env.subjectSlimCache id = some s) (hsn : s.nsfw = true)
    (hi : cacheGet env.subjectItemCache id = some it) (hin : it.nsfw = true) :
    fetchSlimSubjectByID env id false = ⟨none, false, none⟩ ∧
    fetchSlimSubjectByID env id true = ⟨some s, false, none⟩ ∧
    fetchSubjectByID env id false = ⟨none, false, none⟩ ∧
    fetchSubjectByID env id true = ⟨some it, false, none⟩ := by
  unfold fetchSlimSubjectByID fetchSubjectByID
  rw [hs, hi]
  simp [hsn, hin]

/-- Witness for C1 at subject id 5 cached with `nsfw = true` in both key
spaces. -/
theorem claim_C1_witness :
    cacheGet c1env.subjectSlimCache 5 = some ⟨5, true⟩ ∧
    cacheGet c1env.subjectItemCache 5 = some ⟨5, true⟩ ∧
    (fetchSlimSubjectByID c1env 5 false = ⟨none, false, none⟩ ∧
     fetchSlimSubjectByID c1env 5 true = ⟨some ⟨5, true⟩, false, none⟩ ∧
     fetchSubjectByID c1env 5 false = ⟨none, false, none⟩ ∧
     fetchSubjectByID c1env 5 true = ⟨some ⟨5, true⟩, false, none⟩) :=
  ⟨rfl, rfl, claim_C1 c1env 5 ⟨5, true⟩ ⟨5, true⟩ rfl rfl rfl rfl⟩

/-- C3: with a live lock and `flush = false`, `updateTrendingSubjects`
no-ops (identical state, no aggregate query, no trending write); with
`flush = true` the lock is deleted first and — given the period's
duration resolves — the recomputation proceeds: the aggregate query is
issued and the trending key is written. -/
theorem claim_C3 (env : TrendEnv) (t : Nat) (p : TrendingPeriod) (v d : Nat)
    (hlock : cacheGet env.lock (t, p) = some v)
    (hdur : getTrendingPeriodDuration p = some d) :
    updateTrendingSubjects env t p false = ⟨env, false⟩ ∧
    (updateTrendingSubjects env t p true).aggQueried = true ∧
    cacheGet (updateTrendingSubjects env t p true).state.trending (t, p) =
      some (trendingListFor env t d) := by
  refine ⟨?_, ?_, ?_⟩
  · simp [updateTrendingSubjects, hlock]
  · simp [updateTrendingSubjects, cacheGet_cacheDel, hdur]
  · simp [updateTrendingSubjects, cacheGet_cacheDel, hdur, cacheGet_cachePut]

/-- Witness for C3: a live (anime, month) lock in `c3env`. -/
theorem claim_C3_witness :
    cacheGet c3env.lock (2, TrendingPeriod.Month) = some 3600 ∧
    getTrendingPeriodDuration TrendingPeriod.Month = some 2592000000 ∧
    (updateTrendingSubjects c3env 2 TrendingPeriod.Month false = ⟨c3env, false⟩ ∧
     (updateTrendingSubjects c3env 2 TrendingPeriod.Month true).aggQueried = true ∧
     cacheGet (updateTrendingSubjects c3env 2 TrendingPeriod.Month true).state.trending
       (2, TrendingPeriod.Month) = some (trendingListFor c3env 2 2592000000)) :=
  ⟨rfl, rfl, claim_C3 c3env 2 TrendingPeriod.Month 3600 2592000000 rfl rfl⟩

/-- C4: when the period's duration does not resolve,
`updateTrendingSubjects` aborts after setting the lock: no aggregate
query, no trending write, and the lock it just set is left in place with
its 1-hour TTL. -/
theorem claim_C4 (env : TrendEnv) (t : Nat) (p : TrendingPeriod)
    (hdur : getTrendingPeriodDuration p = none)
    (hlock : cacheGet env.lock (t, p) = none) :
    (updateTrendingSubjects env t p false).aggQueried = false ∧
    (updateTrendingSubjects env t p false).state.trending = env.trending ∧
    cacheGet (updateTrendingSubjects env t p false).state.lock (t, p) = some 3600 := by
  refine ⟨?_, ?_, ?_⟩ <;> simp [updateTrendingSubjects, hlock, hdur, cacheGet_cachePut]

/-- Witness for C4: the unmapped `Day` period in `c5env` (no lock). -/
theorem claim_C4_witness :
    getTrendingPeriodDuration TrendingPeriod.Day = none ∧
    cacheGet c5env.lock (2, TrendingPeriod.Day) = none ∧
    ((updateTrendingSubjects c5env 2 TrendingPeriod.Day false).aggQueried = false ∧
     (updateTrendingSubjects c5env 2 TrendingPeriod.Day false).state.trending =
       c5env.trending ∧
     cacheGet (updateTrendingSubjects c5env 2 TrendingPeriod.Day false).state.lock
       (2, TrendingPeriod.Day) = some 3600) :=
  ⟨rfl, rfl, claim_C4 c5env 2 TrendingPeriod.Day rfl rfl⟩

/-- C5: an unobstructed `updateTrendingSubjects` run writes under the
trending key the aggregate list ordered by descending count and capped
at 1000 entries, and `getTrendingSubjects` returns exactly the slice
`[offset, offset + limit)` of the cached list, the empty list when
nothing is cached, consulting nothing but the trending key space (so it
never triggers a computation or store query). -/
theorem claim_C5 (env : TrendEnv) (t : Nat) (p : TrendingPeriod) (d : Nat)
    (hlock : cacheGet env.lock (t, p) = none)
    (hdur : getTrendingPeriodDuration p = some d) :
    (updateTrendingSubjects env t p false).aggQueried = true ∧
    cacheGet (updateTrendingSubjects env t p false).state.trending (t, p) =
      some (trendingListFor env t d) ∧
    List.Sorted (fun a b => b.total ≤ a.total) (trendingListFor env t d) ∧
    (trendingListFor env t d).length ≤ 1000 ∧
    (∀ limit offset,
      getTrendingSubjects (updateTrendingSubjects env t p false).state t p limit offset =
        ((trendingListFor env t d).drop offset).take limit) ∧
    (∀ (st : TrendEnv) (t2 : Nat) (p2 : TrendingPeriod) (limit offset : Nat),
      cacheGet st.trending (t2, p2) = none →
        getTrendingSubjects st t2 p2 limit offset = []) ∧
    (∀ (st : TrendEnv) (lk : Assoc (Nat × TrendingPeriod) Nat)
        (ints : List InterestRow) (subs : List SubjectRow) (n t2 : Nat)
        (p2 : TrendingPeriod) (limit offset : Nat),
      getTrendingSubjects ⟨lk, st.trending, ints, subs, n⟩ t2 p2 limit offset =
        getTrendingSubjects st t2 p2 limit offset) := by
  letI : DecidableRel (fun a b : TrendingItem => b.total ≤ a.total) :=
    fun a b => Nat.decLe b.total a.total
  haveI : IsTotal TrendingItem (fun a b => b.total ≤ a.total) :=
    ⟨fun a b => Nat.le_total b.total a.total⟩
  haveI : IsTrans TrendingItem (fun a b => b.total ≤ a.total) :=
    ⟨fun _ _ _ hab hbc => Nat.le_trans hbc hab⟩
  refine ⟨?_, ?_, ?_, ?_, ?_, ?_, ?_⟩
  · simp [updateTrendingSubjects, hlock, hdur]
  · simp [updateTrendingSubjects, hlock, hdur, cacheGet_cachePut]
  · unfold trendingListFor aggregateTrending
    exact List.Pairwise.sublist (List.take_sublist _ _)
      (List.sorted_insertionSort (fun a b : TrendingItem => b.total ≤ a.total) _)
  · unfold trendingListFor aggregateTrending
    exact List.length_take_le _ _
  · intro limit offset
    simp [updateTrendingSubjects, hlock, hdur, getTrendingSubjects, cacheGet_cachePut]
  · intro st t2 p2 limit offset h
    simp [getTrendingSubjects, h]
  · intro st lk ints subs n t2 p2 limit offset
    rfl

/-- Witness for C5: interests with aggregate counts
`{10 ↦ 5, 20 ↦ 9, 30 ↦ 1}` produce the cached ranked list
`[20, 10, 30]`, and `read(limit = 2, offset = 1)` returns `[10, 30]`. -/
theorem claim_C5_witness :
    cacheGet c5env.lock (2, TrendingPeriod.Month) = none ∧
    getTrendingPeriodDuration TrendingPeriod.Month = some 2592000000 ∧
    trendingListFor c5env 2 2592000000 = [⟨20, 9⟩, ⟨10, 5⟩, ⟨30, 1⟩] ∧
    (getTrendingSubjects (updateTrendingSubjects c5env 2 TrendingPeriod.Month false).state
      2 TrendingPeriod.Month 2 1).map TrendingItem.id = [10, 30] ∧
    ((updateTrendingSubjects c5env 2 TrendingPeriod.Month false).aggQueried = true ∧
     cacheGet (updateTrendingSubjects c5env 2 TrendingPeriod.Month false).state.trending
       (2, TrendingPeriod.Month) = some (trendingListFor c5env 2 2592000000) ∧
     List.Sorted (fun a b => b.total ≤ a.total) (trendingListFor c5env 2 2592000000) ∧
     (trendingListFor c5env 2 2592000000).length ≤ 1000 ∧
     (∀ limit offset,
       getTrendingSubjects (updateTrendingSubjects c5env 2 TrendingPeriod.Month false).state
         2 TrendingPeriod.Month limit offset =
           ((trendingListFor c5env 2 2592000000).drop offset).take limit) ∧
     (∀ (st : TrendEnv) (t2 : Nat) (p2 : TrendingPeriod) (limit offset : Nat),
       cacheGet st.trending (t2, p2) = none →
         getTrendingSubjects st t2 p2 limit offset = []) ∧
     (∀ (st : TrendEnv) (lk : Assoc (Nat × TrendingPeriod) Nat)
         (ints : List InterestRow) (subs : List SubjectRow) (n t2 : Nat)
         (p2 : TrendingPeriod) (limit offset : Nat),
       getTrendingSubjects ⟨lk, st.trending, ints, subs, n⟩ t2 p2 limit offset =
         getTrendingSubjects st t2 p2 limit offset)) :=
  ⟨rfl, rfl, by decide, by decide,
    claim_C5 c5env 2 TrendingPeriod.Month 2592000000 rfl rfl⟩

/-- C6: for input `[1, 2, 2, 3]` with nothing cached, subject 2 banned
in the store and subjects 1 and 3 present (and visible),
`fetchSlimSubjectsByIDs` de-duplicates the input, queries the store once
for `[1, 2, 3]` with ban exclusion, and returns a map with exactly the
keys 1 and 3. -/
theorem claim_C6 (env : FetchEnv) (allowNsfw : Bool) (r1 r2 r3 : SubjectRow)
    (h1 : cacheGet env.subjectSlimCache 1 = none)
    (h2 : cacheGet env.subjectSlimCache 2 = none)
    (h3 : cacheGet env.subjectSlimCache 3 = none)
    (_hrow2 : env.subjects.find? (fun r => decide (r.id = 2)) = some r2)
    (_hban2 : r2.ban = 1)
    (hq : env.subjects.filter (subjectBatchPred [1, 2, 3]) = [r1, r3])
    (hr1 : r1.id = 1) (hr3 : r3.id = 3)
    (hn1 : r1.nsfw = false) (hn3 : r3.nsfw = false) :
    (fetchSlimSubjectsByIDs env [1, 2, 2, 3] allowNsfw).result.map Prod.fst = [1, 3] ∧
    (fetchSlimSubjectsByIDs env [1, 2, 2, 3] allowNsfw).storeQueries = [[1, 2, 3]] := by
  have huniq : uniq [1, 2, 2, 3] = [1, 2, 3] := rfl
  have hloop : nsfwHitLoop env.subjectSlimCache allowNsfw [1, 2, 3] = ([], [1, 2, 3]) := by
    simp [nsfwHitLoop, h1, h2, h3]
  constructor <;>
    simp [fetchSlimSubjectsByIDs, huniq, hloop, hq, hr1, hr3, hn1, hn3, toSlimSubject]

/-- Witness for C6 in `c6env` (subject 2 banned, 1 and 3 present). -/
theorem claim_C6_witness :
    c6env.subjects.filter (subjectBatchPred [1, 2, 3]) =
      [mkSubjectRow 1 2 0 false, mkSubjectRow 3 2 0 false] ∧
    c6env.subjects.find? (fun r => decide (r.id = 2)) = some (mkSubjectRow 2 2 1 false) ∧
    ((fetchSlimSubjectsByIDs c6env [1, 2, 2, 3] false).result.map Prod.fst = [1, 3] ∧
     (fetchSlimSubjectsByIDs c6env [1, 2, 2, 3] false).storeQueries = [[1, 2, 3]]) :=
  ⟨by decide, by decide,
    claim_C6 c6env false (mkSubjectRow 1 2 0 false) (mkSubjectRow 2 2 1 false)
      (mkSubjectRow 3 2 0 false) rfl rfl rfl (by decide) rfl (by decide) rfl rfl rfl rfl⟩

/-- C7 (amended): with an empty input id list every batch fetcher
returns the empty map and issues no store query; `fetchSlimUsersByIDs`
and `fetchSlimSubjectsByIDs` short-circuit without any cache call, but
`fetchSubjectTopicsByIDs`, `fetchEpisodesByIDs` and
`fetchGroupTopicsByIDs` have no such guard and still issue one cache
multi-get (over an empty key list). -/
theorem claim_C7 (env : FetchEnv) (allowNsfw : Bool) :
    fetchSlimUsersByIDs env [] = ⟨[], [], [], []⟩ ∧
    fetchSlimSubjectsByIDs env [] allowNsfw = ⟨[], [], [], []⟩ ∧
    fetchSubjectTopicsByIDs env [] = ⟨[], [[]], [], []⟩ ∧
    fetchEpisodesByIDs env [] = ⟨[], [[]], [], []⟩ ∧
    fetchGroupTopicsByIDs env [] = ⟨[], [[]], [], []⟩ :=
  ⟨rfl, rfl, rfl, rfl, rfl⟩

/-- C7 counterexample: `fetchSubjectTopicsByIDs` on the empty input does
return the empty map, but it performs a cache call (one `mget` with an
empty key list), contradicting "without performing any cache or Store
call". -/
theorem claim_C7_counterexample :
    (fetchSubjectTopicsByIDs emptyFetchEnv []).result = [] ∧
    (fetchSubjectTopicsByIDs emptyFetchEnv []).mgetCalls ≠ [] :=
  ⟨rfl, by decide⟩

/-- C8 (amended): `fetchSlimSubjectsByIDs` (like the other guarded batch
fetchers) queries the store exactly when some requested id misses the
cache, and then over exactly the missing ids; `fetchSlimUsersByIDs`
however issues its batch query unconditionally for non-empty input, over
the (possibly empty) missing id list. -/
theorem claim_C8 (env : FetchEnv) (ids : List Nat) (allowNsfw : Bool) :
    (fetchSlimSubjectsByIDs env ids allowNsfw).storeQueries =
      (if missedIDs env.subjectSlimCache ids = [] then []
       else [missedIDs env.subjectSlimCache ids]) ∧
    (ids ≠ [] → (fetchSlimUsersByIDs env ids).storeQueries =
      [missedIDs env.userSlimCache ids]) := by
  constructor
  · by_cases hids : ids = []
    · subst hids; rfl
    · have hsnd := nsfwHitLoop_snd env.subjectSlimCache allowNsfw (uniq ids)
      simp only [fetchSlimSubjectsByIDs, if_neg hids, missedIDs, hsnd]
      split <;> rfl
  · intro hids
    have hsnd := hitLoop_snd env.userSlimCache (uniq ids)
    simp only [fetchSlimUsersByIDs, if_neg hids, missedIDs, hsnd]

/-- Witness for C8: users 1 and 2 are cache hits, and the users batch
query is issued anyway (over the empty missing list). -/
theorem claim_C8_witness :
    (fetchSlimUsersByIDs c8env [1, 2]).storeQueries =
      [missedIDs c8env.userSlimCache [1, 2]] :=
  (claim_C8 c8env [1, 2] false).2 (by decide)

/-- C8 counterexample: every id requested from `fetchSlimUsersByIDs` is
a cache hit, yet a store query is issued, contradicting "when every id
requested from fetchSlimUsersByIDs is a cache hit, no Store query is
issued". -/
theorem claim_C8_counterexample :
    ((cacheGet c8env.userSlimCache 1).isSome = true ∧
     (cacheGet c8env.userSlimCache 2).isSome = true) ∧
    (fetchSlimUsersByIDs c8env [1, 2]).storeQueries ≠ [] :=
  ⟨⟨rfl, rfl⟩, by decide⟩

/-- C9: single and batch episode lookup disagree on ban exclusion: for a
banned episode present in the store and absent from the cache,
`fetchEpisodeByID` returns absent (its query excludes `ban = 1`) while
`fetchEpisodesByIDs` — whose query carries no ban predicate — returns a
map containing the id and writes the banned episode into the cache. -/
theorem claim_C9 (env : FetchEnv) (id : Nat) (row : EpisodeRow)
    (hc : cacheGet env.epCache id = none)
    (hq : env.episodes.filter (epBatchPred [id]) = [row])
    (hid : row.id = id) (hban : row.ban = 1) :
    fetchEpisodeByID env id = ⟨none, true, none⟩ ∧
    (fetchEpisodesByIDs env [id]).result = [(id, toEpisode row)] ∧
    (fetchEpisodesByIDs env [id]).cacheWrites = [(id, toEpisode row)] := by
  have hfind : env.episodes.find? (epSinglePred id) = none := by
    rw [List.find?_eq_none]
    intro e he hpred
    simp only [epSinglePred, decide_eq_true_eq] at hpred
    have hmem : e ∈ env.episodes.filter (epBatchPred [id]) :=
      List.mem_filter.2 ⟨he, by simp [epBatchPred, hpred.1]⟩
    rw [hq, List.mem_singleton] at hmem
    exact hpred.2 (by rw [hmem, hban])
  have hloop : hitLoop env.epCache [id] = ([], [id]) := by
    simp [hitLoop, hc]
  refine ⟨?_, ?_, ?_⟩
  · simp [fetchEpisodeByID, hc, hfind]
  · simp [fetchEpisodesByIDs, hloop, hq, hid]
  · simp [fetchEpisodesByIDs, hloop, hq, hid]

/-- Witness for C9: banned episode 7 in `c9env`. -/
theorem claim_C9_witness :
    cacheGet c9env.epCache 7 = none ∧
    c9env.episodes.filter (epBatchPred [7]) = [⟨7, 1⟩] ∧
    (fetchEpisodeByID c9env 7 = ⟨none, true, none⟩ ∧
     (fetchEpisodesByIDs c9env [7]).result = [(7, ⟨7⟩)] ∧
     (fetchEpisodesByIDs c9env [7]).cacheWrites = [(7, ⟨7⟩)]) :=
  ⟨rfl, by decide, claim_C9 c9env 7 ⟨7, 1⟩ rfl (by decide) rfl rfl⟩

theorem pageQueried_eq_listMainResult (env : ListEnv) (filter0 : SubjectFilter)
    (sort : SubjectSort) (page : Nat)
    (hmiss : cacheGet env.listCache (filter0, sort, page) = none)
    (hq : (fetchSubjectIDsByFilter env filter0 sort page).pageQueried = true) :
    fetchSubjectIDsByFilter env filter0 sort page =
      listMainResult env filter0 (fetchSubjectIDsByFilter env filter0 sort page).filter
        sort page := by
  unfold fetchSubjectIDsByFilter at hq ⊢
  rw [hmiss] at hq ⊢
  dsimp only at hq ⊢
  by_cases hsort : sort = SubjectSort.Trends
  · rw [if_pos hsort] at hq ⊢
    cases htr : cacheGet env.trending (filter0.type, TrendingPeriod.Month) with
    | none =>
      rw [htr] at hq
      simp at hq
    | some items =>
      rw [htr] at hq
      dsimp only at hq ⊢
      split at hq
      · simp at hq
      · split at hq
        · simp at hq
        · rename_i hc1 hc2
          rw [if_neg hc1, if_neg hc2]
          rfl
  · rw [if_neg hsort] at hq ⊢
    dsimp only at hq ⊢
    split at hq
    · simp at hq
    · split at hq
      · simp at hq
      · rename_i hc1 hc2
        rw [if_neg hc1, if_neg hc2]
        rfl

/-- C2 (amended): whenever `fetchSubjectIDsByFilter` reaches the
paginated query on a cache miss, the returned `total` field equals
`Math.ceil(count / 24)` — the number of 24-id pages of the rows matching
the final predicates, not the full matching count — while `data` is one
page of at most 24 ids, and the value written to the list cache equals
the returned value (TTL 86400 s for page 1, 3600 s otherwise). -/
theorem claim_C2 (env : ListEnv) (filter : SubjectFilter) (sort : SubjectSort)
    (page : Nat)
    (hmiss : cacheGet env.listCache (filter, sort, page) = none)
    (hq : (fetchSubjectIDsByFilter env filter sort page).pageQueried = true) :
    (fetchSubjectIDsByFilter env filter sort page).result.total =
      ((env.subjects.filter
        (listConds (fetchSubjectIDsByFilter env filter sort page).filter sort)).length
        + 23) / 24 ∧
    (fetchSubjectIDsByFilter env filter sort page).result.data.length ≤ 24 ∧
    (fetchSubjectIDsByFilter env filter sort page).cacheWrites =
      [((filter, sort, page), (fetchSubjectIDsByFilter env filter sort page).result,
        if page = 1 then 86400 else 3600)] := by
  obtain ⟨F, hmain⟩ : ∃ F, fetchSubjectIDsByFilter env filter sort page =
      listMainResult env filter F sort page :=
    ⟨_, pageQueried_eq_listMainResult env filter sort page hmiss hq⟩
  rw [hmain]
  refine ⟨rfl, ?_, rfl⟩
  simp only [listMainResult, List.length_map, List.length_take]
  exact Nat.min_le_left _ _

/-- C2 counterexample: with 25 matching subjects the full matching count
is 25, but the returned (and cached) `total` is `Math.ceil(25 / 24) = 2`
— the number of pages — refuting "total ... equal to the full count of
rows matching the filter's predicates". -/
theorem claim_C2_counterexample :
    (c2env.subjects.filter (listConds c2filter SubjectSort.Collects)).length = 25 ∧
    (fetchSubjectIDsByFilter c2env c2filter SubjectSort.Collects 1).result.total = 2 ∧
    (fetchSubjectIDsByFilter c2env c2filter SubjectSort.Collects 1).result.total ≠ 25 := by
  refine ⟨by decide, by decide, by decide⟩

/-- Witness for C2 on the 25-subject environment. -/
theorem claim_C2_witness :
    cacheGet c2env.listCache (c2filter, SubjectSort.Collects, 1) = none ∧
    (fetchSubjectIDsByFilter c2env c2filter SubjectSort.Collects 1).pageQueried = true ∧
    ((fetchSubjectIDsByFilter c2env c2filter SubjectSort.Collects 1).result.total =
      ((c2env.subjects.filter
        (listConds (fetchSubjectIDsByFilter c2env c2filter SubjectSort.Collects 1).filter
          SubjectSort.Collects)).length + 23) / 24 ∧
     (fetchSubjectIDsByFilter c2env c2filter SubjectSort.Collects 1).result.data.length ≤ 24 ∧
     (fetchSubjectIDsByFilter c2env c2filter SubjectSort.Collects 1).cacheWrites =
       [((c2filter, SubjectSort.Collects, 1),
         (fetchSubjectIDsByFilter c2env c2filter SubjectSort.Collects 1).result,
         if (1 : Nat) = 1 then 86400 else 3600)]) :=
  ⟨rfl, by decide, claim_C2 c2env c2filter SubjectSort.Collects 1 rfl (by decide)⟩

/-- C10: `fetchSubjectIDsByFilter` mutates its filter argument — on a
cache miss with `Trends` sort and a trending list present, `filter.ids`
is overwritten with the trending id list, and a tag constraint then
replaces it by its intersection with the tag-matched subject ids; the
returned (caller-visible) filter carries the modification, observably so
whenever the caller passed `ids = none`. -/
theorem claim_C10 (env : ListEnv) (filter : SubjectFilter) (sort : SubjectSort)
    (page : Nat) (items : List TrendingItem) (ts : List Nat)
    (hmiss : cacheGet env.listCache (filter, sort, page) = none)
    (hsort : sort = SubjectSort.Trends)
    (htr : cacheGet env.trending (filter.type, TrendingPeriod.Month) = some items)
    (htags : filter.tags = some ts) :
    (fetchSubjectIDsByFilter env filter sort page).filter.ids =
      some ((items.map (fun it => it.id)).filter
        (fun id => decide (id ∈ tagMatchSubjectIDs env filter.type ts))) ∧
    (filter.ids = none → (fetchSubjectIDsByFilter env filter sort page).filter ≠ filter) := by
  subst hsort
  have h1 : (fetchSubjectIDsByFilter env filter SubjectSort.Trends page).filter.ids =
      some ((items.map (fun it => it.id)).filter
        (fun id => decide (id ∈ tagMatchSubjectIDs env filter.type ts))) := by
    unfold fetchSubjectIDsByFilter
    rw [hmiss]
    dsimp only
    rw [if_pos rfl, htr]
    dsimp only
    rw [htags]
    dsimp only
    split
    · rfl
    · split
      · rfl
      · rfl
  refine ⟨h1, fun hids hEq => ?_⟩
  rw [hEq, hids] at h1
  exact Option.noConfusion h1

/-- Witness for C10: a trending list `[40, 50]` and a tag matching only
subject 40 leave the caller's filter with `ids = some [40]`. -/
theorem claim_C10_witness :
    cacheGet c10env.listCache (c10filter, SubjectSort.Trends, 1) = none ∧
    cacheGet c10env.trending (c10filter.type, TrendingPeriod.Month) =
      some [⟨40, 3⟩, ⟨50, 2⟩] ∧
    c10filter.tags = some [9] ∧
    c10filter.ids = none ∧
    (fetchSubjectIDsByFilter c10env c10filter SubjectSort.Trends 1).filter.ids =
      some [40] ∧
    (fetchSubjectIDsByFilter c10env c10filter SubjectSort.Trends 1).filter ≠ c10filter :=
  ⟨rfl, rfl, rfl, rfl, by decide,
    (claim_C10 c10env c10filter SubjectSort.Trends 1 [⟨40, 3⟩, ⟨50, 2⟩] [9]
      rfl rfl rfl rfl).2 rfl⟩
